import Mathlib

/-!
# Verification of the ControlPID controller (ControlPID.cpp / ControlPID.h)

Shallow embedding of the `controlPID` C++ class.  C++ `float` values are
modelled as exact rationals; the Arduino clock `micros()` (an `unsigned long`)
is modelled as a natural-number argument `TiempoActual` supplied by the caller,
and the elapsed interval `TiempoActual - TiempoAnterior` is taken as the exact
difference of the two timestamps (which agrees with the unsigned C++
subtraction under the monotonic, non-wrapping clock the spec requires of the
external clock source).  Division by zero in the rationals yields 0.

Members of the C++ class that have no in-class initializer and are not set by
the constructor (`Salida`, `Proporcional`, `Derivativo`, `SalidaMax`,
`SalidaMin`) are modelled as zero-initialized, which is the behaviour of a
static-storage instance and the default the spec assumes (bounds default to 0
when never set).
-/

/-- State of a `controlPID` object: one field per C++ data member. -/
structure controlPID where
  Salida : ℚ
  Proporcional : ℚ
  Integral : ℚ
  Derivativo : ℚ
  Kp : ℚ
  Ti : ℚ
  Td : ℚ
  TiempoAnterior : ℕ
  ErrorAnterior : ℚ
  LimitaSalida : Bool
  LimitaIntegral : Bool
  CondicionaIntegral : Bool
  SalidaMax : ℚ
  SalidaMin : ℚ

/-- The class constant `const float MILLON = 1e6` used to convert micros() to seconds. -/
def MILLON : ℚ := 1000000

/-- `controlPID::ConfigurarPID(KP, TI, TD)`: sets the gains and resets the
integration state, leaving limits and conditioning untouched. -/
def ConfigurarPID (s : controlPID) (KP TI TD : ℚ) : controlPID :=
  { s with Kp := KP, Ti := TI, Td := TD,
           TiempoAnterior := 0, ErrorAnterior := 0, Integral := 0 }

/-- The constructor `controlPID::controlPID(KP, TI, TD)`: runs `ConfigurarPID`
and sets the three limit/conditioning flags to false.  The remaining members
are zero-initialized (see file header). -/
def controlPID.init (KP TI TD : ℚ) : controlPID :=
  { ConfigurarPID
      { Salida := 0, Proporcional := 0, Integral := 0, Derivativo := 0,
        Kp := 0, Ti := 0, Td := 0, TiempoAnterior := 0, ErrorAnterior := 0,
        LimitaSalida := false, LimitaIntegral := false, CondicionaIntegral := false,
        SalidaMax := 0, SalidaMin := 0 } KP TI TD
    with LimitaSalida := false, LimitaIntegral := false, CondicionaIntegral := false }

/-- `controlPID::LimitarSalida()`: getter for `LimitaSalida`. -/
def LimitarSalida0 (s : controlPID) : Bool :=
  s.LimitaSalida

/-- `controlPID::LimitarSalida(RESPUESTA)`: enables or disables output limiting
with the previously stored bounds; forces false when `SalidaMax == 0 && SalidaMin == 0`. -/
def LimitarSalida1 (s : controlPID) (RESPUESTA : Bool) : Bool × controlPID :=
  let s1 : controlPID := { s with LimitaSalida := RESPUESTA }
  let s2 : controlPID :=
    if s1.SalidaMax = 0 ∧ s1.SalidaMin = 0 then { s1 with LimitaSalida := false } else s1
  (s2.LimitaSalida, s2)

/-- `controlPID::LimitarSalida(RESPUESTA, SMIN, SMAX)`: stores the bounds and
sets the flag, then forces the flag false when `SMAX == SMIN` and when
`SMIN > SMAX`.  The bounds themselves are stored unconditionally. -/
def LimitarSalida3 (s : controlPID) (RESPUESTA : Bool) (SMIN SMAX : ℚ) : Bool × controlPID :=
  let s1 : controlPID := { s with SalidaMax := SMAX, SalidaMin := SMIN, LimitaSalida := RESPUESTA }
  let s2 : controlPID :=
    if s1.SalidaMax = s1.SalidaMin then { s1 with LimitaSalida := false } else s1
  let s3 : controlPID :=
    if s2.SalidaMin > s2.SalidaMax then { s2 with LimitaSalida := false } else s2
  (s3.LimitaSalida, s3)

/-- `controlPID::LimitarIntegral()`: getter for `LimitaIntegral`. -/
def LimitarIntegral0 (s : controlPID) : Bool :=
  s.LimitaIntegral

/-- `controlPID::LimitarIntegral(RESPUESTA)`: enables or disables the integral
clamp; forces false when `SalidaMax == SalidaMin`. -/
def LimitarIntegral1 (s : controlPID) (RESPUESTA : Bool) : Bool × controlPID :=
  let s1 : controlPID := { s with LimitaIntegral := RESPUESTA }
  let s2 : controlPID :=
    if s1.SalidaMax = s1.SalidaMin then { s1 with LimitaIntegral := false } else s1
  (s2.LimitaIntegral, s2)

/-- `controlPID::CondicionarIntegral()`: getter for `CondicionaIntegral`. -/
def CondicionarIntegral0 (s : controlPID) : Bool :=
  s.CondicionaIntegral

/-- `controlPID::CondicionarIntegral(RESPUESTA)`: enables or disables
pause-on-saturation; forces false when `LimitaSalida` is false. -/
def CondicionarIntegral1 (s : controlPID) (RESPUESTA : Bool) : Bool × controlPID :=
  let s1 : controlPID := { s with CondicionaIntegral := RESPUESTA }
  let s2 : controlPID :=
    if s1.LimitaSalida then s1 else { s1 with CondicionaIntegral := false }
  (s2.CondicionaIntegral, s2)

/-- The derivative component computed inside `controlPID::Controlar`:
`Kp*Td*(ERROR-ErrorAnterior)*MILLON / (TiempoActual-TiempoAnterior)` when
this is not a first call (`TiempoAnterior > 0`) and `Td != 0`, else 0. -/
def DerivativoPaso (s : controlPID) (ERROR : ℚ) (TiempoActual : ℕ) : ℚ :=
  if 0 < s.TiempoAnterior ∧ s.Td ≠ 0 then
    s.Kp * s.Td * (ERROR - s.ErrorAnterior) * MILLON
      / ((TiempoActual : ℚ) - (s.TiempoAnterior : ℚ))
  else 0

/-- The saturation test inside `controlPID::Controlar`: the provisional output
`Proporcional + Integral + Derivativo` (with the integral of the previous
cycle) lies outside the bounds, while output limiting is on. -/
def SalidaEstaSaturada (s : controlPID) (ERROR : ℚ) (TiempoActual : ℕ) : Bool :=
  let Salida := s.Kp * ERROR + s.Integral + DerivativoPaso s ERROR TiempoActual
  s.LimitaSalida && (decide (Salida > s.SalidaMax) || decide (Salida < s.SalidaMin))

/-- The integral clamp inside `controlPID::Controlar`:
`Integral = min(Integral, SalidaMax); Integral = max(Integral, SalidaMin)`
applied only when `LimitaIntegral` holds. -/
def clampIntegral (s : controlPID) (x : ℚ) : ℚ :=
  if s.LimitaIntegral then max s.SalidaMin (min x s.SalidaMax) else x

/-- The integral block of `controlPID::Controlar`: on a non-first call with
`Ti != 0`, accumulate the trapezoidal increment unless conditioning is on and
the output is saturated, and then clamp when `LimitaIntegral` holds; otherwise
the accumulator is left untouched (the clamp included). -/
def IntegralPaso (s : controlPID) (ERROR : ℚ) (TiempoActual : ℕ) : ℚ :=
  if 0 < s.TiempoAnterior ∧ s.Ti ≠ 0 then
    clampIntegral s
      (if !s.CondicionaIntegral || !SalidaEstaSaturada s ERROR TiempoActual then
        s.Integral + s.Kp * (ERROR + s.ErrorAnterior)
          * ((TiempoActual : ℚ) - (s.TiempoAnterior : ℚ)) / (2 * s.Ti * MILLON)
      else s.Integral)
  else s.Integral

/-- `controlPID::Controlar(ERROR)`: the control law.  `TiempoActual` stands for
the value read from `micros()`.  Returns the output together with the updated
object state. -/
def Controlar (s : controlPID) (ERROR : ℚ) (TiempoActual : ℕ) : ℚ × controlPID :=
  let Proporcional := s.Kp * ERROR
  let Derivativo := DerivativoPaso s ERROR TiempoActual
  let Integral := IntegralPaso s ERROR TiempoActual
  let Salida := Proporcional + Integral + Derivativo
  let SalidaFinal :=
    if s.LimitaSalida then max s.SalidaMin (min Salida s.SalidaMax) else Salida
  (SalidaFinal,
   { s with Salida := SalidaFinal, Proporcional := Proporcional, Integral := Integral,
            Derivativo := Derivativo, TiempoAnterior := TiempoActual, ErrorAnterior := ERROR })

/-- `controlPID::Apagar()`: resets the running state; gains, bounds and flags
are kept, and `Salida` keeps its last value. -/
def Apagar (s : controlPID) : controlPID :=
  { s with TiempoAnterior := 0, ErrorAnterior := 0, Integral := 0,
           Proporcional := 0, Derivativo := 0 }

/-- `controlPID::ObtenerIntegral()`. -/
def ObtenerIntegral (s : controlPID) : ℚ :=
  s.Integral

/-- `controlPID::ObtenerProporcional()`. -/
def ObtenerProporcional (s : controlPID) : ℚ :=
  s.Proporcional

/-- `controlPID::ObtenerDerivativo()`. -/
def ObtenerDerivativo (s : controlPID) : ℚ :=
  s.Derivativo

/-- `controlPID::ObtenerSalida()`. -/
def ObtenerSalida (s : controlPID) : ℚ :=
  s.Salida

/-- Runs a sequence of `Controlar` calls, each given by an error value and a
clock reading, collecting the returned outputs and the final state. -/
def runPID (s : controlPID) : List (ℚ × ℕ) → List ℚ × controlPID
  | [] => ([], s)
  | p :: rest =>
    ((Controlar s p.1 p.2).1 :: (runPID (Controlar s p.1 p.2).2 rest).1,
     (runPID (Controlar s p.1 p.2).2 rest).2)

/-- States reachable from a freshly constructed controller by any sequence of
the public mutating operations. -/
inductive Reachable : controlPID → Prop where
  | construct (KP TI TD : ℚ) : Reachable (controlPID.init KP TI TD)
  | configurar {s : controlPID} (h : Reachable s) (KP TI TD : ℚ) :
      Reachable (ConfigurarPID s KP TI TD)
  | limitarSalida1 {s : controlPID} (h : Reachable s) (R : Bool) :
      Reachable (LimitarSalida1 s R).2
  | limitarSalida3 {s : controlPID} (h : Reachable s) (R : Bool) (SMIN SMAX : ℚ) :
      Reachable (LimitarSalida3 s R SMIN SMAX).2
  | limitarIntegral {s : controlPID} (h : Reachable s) (R : Bool) :
      Reachable (LimitarIntegral1 s R).2
  | condicionar {s : controlPID} (h : Reachable s) (R : Bool) :
      Reachable (CondicionarIntegral1 s R).2
  | controlar {s : controlPID} (h : Reachable s) (E : ℚ) (t : ℕ) :
      Reachable (Controlar s E t).2
  | apagar {s : controlPID} (h : Reachable s) : Reachable (Apagar s)

/-- Demo state: bounds `[-1, 1]` stored and output limiting enabled. -/
def demoLim : controlPID :=
  (LimitarSalida3 (controlPID.init 2 0 0) true (-1) 1).2

/-- Demo state: inverted bounds `min = 2 > max = 1` stored, limiting off. -/
def demoInv : controlPID :=
  (LimitarSalida3 (controlPID.init 1 0 0) false 2 1).2

/-- Demo state: degenerate bounds `min = max = 5` stored, limiting off. -/
def demoDeg : controlPID :=
  (LimitarSalida3 (controlPID.init 1 0 0) false 5 5).2

/-- Demo state: bounds `[1, 2]`, output and integral limiting enabled,
no evaluation performed yet. -/
def demoInt : controlPID :=
  (LimitarIntegral1 (LimitarSalida3 (controlPID.init 1 1 0) true 1 2).2 true).2

/-- Demo state: a controller mid-run (previous sample at time 1), `Kp = 1`,
`Ti = 1`, no limiting. -/
def demoRun : controlPID :=
  { Salida := 0, Proporcional := 0, Integral := 0, Derivativo := 0,
    Kp := 1, Ti := 1, Td := 0, TiempoAnterior := 1, ErrorAnterior := 0,
    LimitaSalida := false, LimitaIntegral := false, CondicionaIntegral := false,
    SalidaMax := 0, SalidaMin := 0 }

/-- Demo state: as demoRun but with the integral clamp enabled on `[-1, 1]`. -/
def demoRunLim : controlPID :=
  { demoRun with LimitaIntegral := true, SalidaMin := -1, SalidaMax := 1 }

lemma clamp_mem {a b x : ℚ} (h : a ≤ b) : a ≤ max a (min x b) ∧ max a (min x b) ≤ b :=
  ⟨le_max_left _ _, max_le h (min_le_right _ _)⟩

lemma Controlar_LimitaSalida (s : controlPID) (E : ℚ) (t : ℕ) :
    (Controlar s E t).2.LimitaSalida = s.LimitaSalida := rfl

lemma Controlar_SalidaMin (s : controlPID) (E : ℚ) (t : ℕ) :
    (Controlar s E t).2.SalidaMin = s.SalidaMin := rfl

lemma Controlar_SalidaMax (s : controlPID) (E : ℚ) (t : ℕ) :
    (Controlar s E t).2.SalidaMax = s.SalidaMax := rfl

lemma Controlar_Salida_eq_fst (s : controlPID) (E : ℚ) (t : ℕ) :
    (Controlar s E t).2.Salida = (Controlar s E t).1 := rfl

lemma Controlar_fst_mem (s : controlPID) (E : ℚ) (t : ℕ) (hL : s.LimitaSalida = true)
    (hle : s.SalidaMin ≤ s.SalidaMax) :
    s.SalidaMin ≤ (Controlar s E t).1 ∧ (Controlar s E t).1 ≤ s.SalidaMax := by
  have h : (Controlar s E t).1 =
      max s.SalidaMin (min (s.Kp * E + IntegralPaso s E t + DerivativoPaso s E t) s.SalidaMax) := by
    simp [Controlar, hL]
  rw [h]
  exact clamp_mem hle

lemma runPID_out_mem (l : List (ℚ × ℕ)) :
    ∀ s : controlPID, s.LimitaSalida = true → s.SalidaMin ≤ s.SalidaMax →
      ∀ o ∈ (runPID s l).1, s.SalidaMin ≤ o ∧ o ≤ s.SalidaMax := by
  induction l with
  | nil => intro s _ _ o ho; simp [runPID] at ho
  | cons p rest ih =>
      intro s hL hle o ho
      simp only [runPID, List.mem_cons] at ho
      rcases ho with rfl | ho
      · exact Controlar_fst_mem s p.1 p.2 hL hle
      · exact ih (Controlar s p.1 p.2).2 hL hle o ho

lemma runPID_final_Salida (l : List (ℚ × ℕ)) :
    ∀ s : controlPID, s.LimitaSalida = true → s.SalidaMin ≤ s.SalidaMax → l ≠ [] →
      s.SalidaMin ≤ (runPID s l).2.Salida ∧ (runPID s l).2.Salida ≤ s.SalidaMax := by
  induction l with
  | nil => intro s _ _ h; exact absurd rfl h
  | cons p rest ih =>
      intro s hL hle _
      by_cases hr : rest = []
      · subst hr
        exact Controlar_fst_mem s p.1 p.2 hL hle
      · exact ih (Controlar s p.1 p.2).2 hL hle hr

/-- C1: with output limiting enabled and valid bounds, every output returned
along any sequence of Evaluate calls, as well as the stored output field,
stays inside the bounds. -/
theorem C1_output_always_in_bounds (s : controlPID) (l : List (ℚ × ℕ))
    (hL : s.LimitaSalida = true) (hle : s.SalidaMin ≤ s.SalidaMax)
    (hne : s.SalidaMin ≠ s.SalidaMax) :
    (∀ o ∈ (runPID s l).1, s.SalidaMin ≤ o ∧ o ≤ s.SalidaMax)
    ∧ (l ≠ [] → s.SalidaMin ≤ (runPID s l).2.Salida ∧ (runPID s l).2.Salida ≤ s.SalidaMax) :=
  ⟨runPID_out_mem l s hL hle, runPID_final_Salida l s hL hle⟩

theorem C1_witness :
    demoLim.LimitaSalida = true ∧ demoLim.SalidaMin ≤ demoLim.SalidaMax
    ∧ demoLim.SalidaMin ≠ demoLim.SalidaMax
    ∧ ((∀ o ∈ (runPID demoLim [(3, 100)]).1, demoLim.SalidaMin ≤ o ∧ o ≤ demoLim.SalidaMax)
       ∧ ([((3 : ℚ), (100 : ℕ))] ≠ [] →
           demoLim.SalidaMin ≤ (runPID demoLim [(3, 100)]).2.Salida
           ∧ (runPID demoLim [(3, 100)]).2.Salida ≤ demoLim.SalidaMax)) :=
  ⟨by decide, by decide, by decide,
   C1_output_always_in_bounds demoLim [(3, 100)] (by decide) (by decide) (by decide)⟩

/-- C2: integral update rule. -/
theorem C2_integral_update (s : controlPID) (E : ℚ) (t : ℕ)
    (hT : 0 < s.TiempoAnterior) (hTi : s.Ti ≠ 0) :
    (¬(s.CondicionaIntegral = true ∧ SalidaEstaSaturada s E t = true) →
        (Controlar s E t).2.Integral =
          clampIntegral s (s.Integral + s.Kp * (E + s.ErrorAnterior)
            * ((t : ℚ) - (s.TiempoAnterior : ℚ)) / (2 * s.Ti * MILLON)))
    ∧ (s.CondicionaIntegral = true → SalidaEstaSaturada s E t = true →
        (Controlar s E t).2.Integral = clampIntegral s s.Integral) := by
  have hI : (Controlar s E t).2.Integral = IntegralPaso s E t := rfl
  constructor
  · intro h
    have hb : (!s.CondicionaIntegral || !SalidaEstaSaturada s E t) = true := by
      cases hc : s.CondicionaIntegral with
      | false => simp [hc]
      | true =>
        cases hs : SalidaEstaSaturada s E t with
        | false => simp [hs]
        | true => exact absurd ⟨hc, hs⟩ h
    rw [hI]
    unfold IntegralPaso
    rw [if_pos ⟨hT, hTi⟩, if_pos hb]
  · intro hc hs
    rw [hI]
    unfold IntegralPaso
    rw [if_pos ⟨hT, hTi⟩, if_neg (by simp [hc, hs])]

theorem C2_witness :
    0 < demoRun.TiempoAnterior ∧ demoRun.Ti ≠ 0
    ∧ ¬(demoRun.CondicionaIntegral = true ∧ SalidaEstaSaturada demoRun 1 3 = true)
    ∧ (Controlar demoRun 1 3).2.Integral =
        clampIntegral demoRun (demoRun.Integral + demoRun.Kp * (1 + demoRun.ErrorAnterior)
          * (((3 : ℕ) : ℚ) - (demoRun.TiempoAnterior : ℚ)) / (2 * demoRun.Ti * MILLON)) :=
  ⟨by decide, by decide, by decide,
   (C2_integral_update demoRun 1 3 (by decide) (by decide)).1 (by decide)⟩

lemma clampIntegral_mem (s : controlPID) (x : ℚ) (hI : s.LimitaIntegral = true)
    (hle : s.SalidaMin ≤ s.SalidaMax) :
    s.SalidaMin ≤ clampIntegral s x ∧ clampIntegral s x ≤ s.SalidaMax := by
  unfold clampIntegral
  rw [if_pos hI]
  exact clamp_mem hle

/-- C3 counterexample: integral limiting enabled, bounds [1,2], first call:
the clamp is skipped and the accumulator stays at 0, outside the bounds. -/
theorem C3_counterexample :
    demoInt.LimitaIntegral = true ∧ demoInt.SalidaMin = 1 ∧ demoInt.SalidaMax = 2
    ∧ (Controlar demoInt 0 100).2.Integral = 0
    ∧ ¬(demoInt.SalidaMin ≤ (Controlar demoInt 0 100).2.Integral) := by decide

/-- C3 amended: clamp applies (only) on non-first calls with Ti nonzero. -/
theorem C3_integral_clamped_on_update (s : controlPID) (E : ℚ) (t : ℕ)
    (hI : s.LimitaIntegral = true) (hle : s.SalidaMin ≤ s.SalidaMax)
    (hT : 0 < s.TiempoAnterior) (hTi : s.Ti ≠ 0) :
    s.SalidaMin ≤ (Controlar s E t).2.Integral ∧ (Controlar s E t).2.Integral ≤ s.SalidaMax := by
  have h0 : (Controlar s E t).2.Integral = IntegralPaso s E t := rfl
  rw [h0]
  unfold IntegralPaso
  rw [if_pos ⟨hT, hTi⟩]
  exact clampIntegral_mem s _ hI hle

theorem C3_witness :
    demoRunLim.LimitaIntegral = true ∧ demoRunLim.SalidaMin ≤ demoRunLim.SalidaMax
    ∧ 0 < demoRunLim.TiempoAnterior ∧ demoRunLim.Ti ≠ 0
    ∧ (demoRunLim.SalidaMin ≤ (Controlar demoRunLim 1 3).2.Integral
       ∧ (Controlar demoRunLim 1 3).2.Integral ≤ demoRunLim.SalidaMax) :=
  ⟨by decide, by decide, by decide, by decide,
   C3_integral_clamped_on_update demoRunLim 1 3 (by decide) (by decide) (by decide) (by decide)⟩

/-- C4 counterexample: enable conditioning while limiting is on, then disable
limiting with the one-argument setter: conditioning stays enabled. -/
theorem C4_counterexample :
    Reachable (LimitarSalida1
      (CondicionarIntegral1 (LimitarSalida3 (controlPID.init 1 0 0) true 0 1).2 true).2 false).2
    ∧ (LimitarSalida1
        (CondicionarIntegral1 (LimitarSalida3 (controlPID.init 1 0 0) true 0 1).2 true).2
        false).2.CondicionaIntegral = true
    ∧ (LimitarSalida1
        (CondicionarIntegral1 (LimitarSalida3 (controlPID.init 1 0 0) true 0 1).2 true).2
        false).2.LimitaSalida = false :=
  ⟨Reachable.limitarSalida1
      (Reachable.condicionar (Reachable.limitarSalida3 (Reachable.construct 1 0 0) true 0 1) true)
      false,
   by decide, by decide⟩

/-- C4 amended: the implication holds right after the conditioning setter. -/
theorem C4_conditioning_requires_limiting_at_set (s : controlPID) (R : Bool)
    (h : (CondicionarIntegral1 s R).2.CondicionaIntegral = true) :
    s.LimitaSalida = true ∧ (CondicionarIntegral1 s R).1 = true := by
  cases hL : s.LimitaSalida with
  | true => exact ⟨rfl, h⟩
  | false =>
    exfalso
    have h2 : (CondicionarIntegral1 s R).2.CondicionaIntegral = false := by
      simp [CondicionarIntegral1, hL]
    rw [h2] at h
    exact Bool.false_ne_true h

theorem C4_witness :
    (CondicionarIntegral1 demoLim true).2.CondicionaIntegral = true
    ∧ (demoLim.LimitaSalida = true ∧ (CondicionarIntegral1 demoLim true).1 = true) :=
  ⟨by decide, C4_conditioning_requires_limiting_at_set demoLim true (by decide)⟩

/-- C5 counterexample: bounds 5,5 stored, then the one-argument enable is
honored, contradicting the claim that it must yield false. -/
theorem C5_counterexample :
    demoDeg.SalidaMin = 5 ∧ demoDeg.SalidaMax = 5
    ∧ (LimitarSalida1 demoDeg true).1 = true
    ∧ (LimitarSalida1 demoDeg true).2.LimitaSalida = true := by decide

/-- C5 amended: the one-argument setter rejects only never-set bounds (0,0). -/
theorem C5_enable_rejected_only_for_zero_bounds (s : controlPID) (R : Bool) :
    (LimitarSalida1 s R).1 = (if s.SalidaMax = 0 ∧ s.SalidaMin = 0 then false else R)
    ∧ (LimitarSalida1 s R).2.LimitaSalida = (LimitarSalida1 s R).1 := by
  by_cases h : s.SalidaMax = 0 ∧ s.SalidaMin = 0
  · simp [LimitarSalida1, h]
  · simp [LimitarSalida1, h]

/-- C6 counterexample: inverted bounds min=2 > max=1 stored, yet
SetIntegralLimit(true) is accepted. -/
theorem C6_counterexample :
    demoInv.SalidaMin = 2 ∧ demoInv.SalidaMax = 1
    ∧ (LimitarIntegral1 demoInv true).1 = true
    ∧ (LimitarIntegral1 demoInv true).2.LimitaIntegral = true := by decide

/-- C6 amended: the integral-limit setter rejects only equal bounds. -/
theorem C6_integral_limit_rejected_only_if_equal (s : controlPID) (R : Bool) :
    (LimitarIntegral1 s R).1 = (if s.SalidaMax = s.SalidaMin then false else R)
    ∧ (LimitarIntegral1 s R).2.LimitaIntegral = (LimitarIntegral1 s R).1 := by
  by_cases h : s.SalidaMax = s.SalidaMin
  · simp [LimitarIntegral1, h]
  · simp [LimitarIntegral1, h]

lemma LimitarSalida1_Ti_Integral (s : controlPID) (R : Bool) :
    (LimitarSalida1 s R).2.Ti = s.Ti ∧ (LimitarSalida1 s R).2.Integral = s.Integral := by
  simp only [LimitarSalida1]
  split <;> exact ⟨rfl, rfl⟩

lemma LimitarSalida3_Ti_Integral (s : controlPID) (R : Bool) (SMIN SMAX : ℚ) :
    (LimitarSalida3 s R SMIN SMAX).2.Ti = s.Ti
    ∧ (LimitarSalida3 s R SMIN SMAX).2.Integral = s.Integral := by
  simp only [LimitarSalida3]
  split <;> split <;> exact ⟨rfl, rfl⟩

lemma LimitarIntegral1_Ti_Integral (s : controlPID) (R : Bool) :
    (LimitarIntegral1 s R).2.Ti = s.Ti ∧ (LimitarIntegral1 s R).2.Integral = s.Integral := by
  simp only [LimitarIntegral1]
  split <;> exact ⟨rfl, rfl⟩

lemma CondicionarIntegral1_Ti_Integral (s : controlPID) (R : Bool) :
    (CondicionarIntegral1 s R).2.Ti = s.Ti
    ∧ (CondicionarIntegral1 s R).2.Integral = s.Integral := by
  simp only [CondicionarIntegral1]
  split <;> exact ⟨rfl, rfl⟩

lemma IntegralPaso_of_Ti_zero (s : controlPID) (E : ℚ) (t : ℕ) (h : s.Ti = 0) :
    IntegralPaso s E t = s.Integral := by
  simp [IntegralPaso, h]

/-- In any reachable state, a disabled integral time constant goes along with
a zero integral accumulator. -/
lemma reachable_Ti_zero_integral {s : controlPID} (h : Reachable s) :
    s.Ti = 0 → s.Integral = 0 := by
  induction h with
  | construct KP TI TD => intro _; rfl
  | configurar h KP TI TD ih => intro _; rfl
  | limitarSalida1 h R ih =>
      intro hTi
      rw [(LimitarSalida1_Ti_Integral _ R).2]
      exact ih ((LimitarSalida1_Ti_Integral _ R).1 ▸ hTi)
  | limitarSalida3 h R SMIN SMAX ih =>
      intro hTi
      rw [(LimitarSalida3_Ti_Integral _ R SMIN SMAX).2]
      exact ih ((LimitarSalida3_Ti_Integral _ R SMIN SMAX).1 ▸ hTi)
  | limitarIntegral h R ih =>
      intro hTi
      rw [(LimitarIntegral1_Ti_Integral _ R).2]
      exact ih ((LimitarIntegral1_Ti_Integral _ R).1 ▸ hTi)
  | condicionar h R ih =>
      intro hTi
      rw [(CondicionarIntegral1_Ti_Integral _ R).2]
      exact ih ((CondicionarIntegral1_Ti_Integral _ R).1 ▸ hTi)
  | controlar h E t ih =>
      intro hTi
      exact Eq.trans (IntegralPaso_of_Ti_zero _ E t hTi) (ih hTi)
  | apagar h ih => intro _; rfl

/-- C7 counterexample: a reachable state with Ti = Td = 0 but output limiting
enabled, where Evaluate returns the clamped value 1 instead of Kp * e = 6. -/
theorem C7_counterexample :
    Reachable demoLim ∧ demoLim.Ti = 0 ∧ demoLim.Td = 0
    ∧ (Controlar demoLim 3 100).1 ≠ demoLim.Kp * 3 := by
  refine ⟨Reachable.limitarSalida3 (Reachable.construct 2 0 0) true (-1) 1, rfl, rfl, ?_⟩
  have h : demoLim = ⟨0, 0, 0, 0, 2, 0, 0, 0, 0, true, false, false, 1, -1⟩ := rfl
  rw [h]
  simp [Controlar, DerivativoPaso, IntegralPaso, SalidaEstaSaturada, clampIntegral]
  norm_num [min_def, max_def]

/-- C7 amended: pure proportional behaviour on reachable states with
Ti = Td = 0 and output limiting disabled. -/
theorem C7_pure_proportional {s : controlPID} (hR : Reachable s) (hTi : s.Ti = 0)
    (hTd : s.Td = 0) (hL : s.LimitaSalida = false) (E : ℚ) (t : ℕ) :
    (Controlar s E t).1 = s.Kp * E := by
  have hInt : s.Integral = 0 := reachable_Ti_zero_integral hR hTi
  have hD : DerivativoPaso s E t = 0 := by simp [DerivativoPaso, hTd]
  have hIP : IntegralPaso s E t = s.Integral := IntegralPaso_of_Ti_zero s E t hTi
  simp [Controlar, hL, hD, hIP, hInt]

theorem C7_witness :
    (controlPID.init 2 0 0).Ti = 0 ∧ (controlPID.init 2 0 0).Td = 0
    ∧ (controlPID.init 2 0 0).LimitaSalida = false
    ∧ (Controlar (controlPID.init 2 0 0) 3 100).1 = (controlPID.init 2 0 0).Kp * 3 :=
  ⟨rfl, rfl, rfl, C7_pure_proportional (Reachable.construct 2 0 0) rfl rfl rfl 3 100⟩

lemma Controlar_first_call (s : controlPID) (E : ℚ) (t : ℕ) (h : s.TiempoAnterior = 0) :
    (Controlar s E t).2.Derivativo = 0 ∧ (Controlar s E t).2.Integral = s.Integral := by
  constructor
  · show DerivativoPaso s E t = 0
    simp [DerivativoPaso, h]
  · show IntegralPaso s E t = s.Integral
    simp [IntegralPaso, h]

/-- C8: the first Evaluate after construction, reconfiguration or shutdown has
zero derivative contribution and an unchanged (zero) integral. -/
theorem C8_first_call_skips_derivative_and_integral (s : controlPID) (KP TI TD E : ℚ) (t : ℕ) :
    ((Controlar (controlPID.init KP TI TD) E t).2.Derivativo = 0
      ∧ (Controlar (controlPID.init KP TI TD) E t).2.Integral = 0)
    ∧ ((Controlar (ConfigurarPID s KP TI TD) E t).2.Derivativo = 0
      ∧ (Controlar (ConfigurarPID s KP TI TD) E t).2.Integral = 0)
    ∧ ((Controlar (Apagar s) E t).2.Derivativo = 0
      ∧ (Controlar (Apagar s) E t).2.Integral = 0) :=
  ⟨Controlar_first_call _ E t rfl, Controlar_first_call _ E t rfl, Controlar_first_call _ E t rfl⟩

/-- C9: an Evaluate at clock value 0 stores the first-call sentinel again, so
the following Evaluate skips both derivative and integral. -/
theorem C9_evaluate_at_time_zero_resets_sentinel (s : controlPID) (E E2 : ℚ) (t2 : ℕ) :
    (Controlar s E 0).2.TiempoAnterior = 0
    ∧ (Controlar (Controlar s E 0).2 E2 t2).2.Derivativo = 0
    ∧ (Controlar (Controlar s E 0).2 E2 t2).2.Integral = (Controlar s E 0).2.Integral :=
  ⟨rfl, (Controlar_first_call _ E2 t2 rfl).1, (Controlar_first_call _ E2 t2 rfl).2⟩

lemma LimitarSalida3_of_inverted (s : controlPID) (R : Bool) (SMIN SMAX : ℚ) (h : SMAX < SMIN) :
    (LimitarSalida3 s R SMIN SMAX).2
      = { s with SalidaMax := SMAX, SalidaMin := SMIN, LimitaSalida := false } := by
  simp only [LimitarSalida3]
  rw [if_neg (ne_of_lt h)]
  rw [if_pos h]

lemma LimitarSalida1_of_nonzero (s : controlPID) (R : Bool)
    (h : ¬(s.SalidaMax = 0 ∧ s.SalidaMin = 0)) :
    (LimitarSalida1 s R).2 = { s with LimitaSalida := R } := by
  simp only [LimitarSalida1]
  rw [if_neg h]

lemma Controlar_inverted_clamp (s : controlPID) (E : ℚ) (t : ℕ)
    (hL : s.LimitaSalida = true) (h : s.SalidaMax < s.SalidaMin) :
    (Controlar s E t).1 = s.SalidaMin := by
  have hfst : (Controlar s E t).1 =
      max s.SalidaMin (min (s.Kp * E + IntegralPaso s E t + DerivativoPaso s E t) s.SalidaMax) := by
    simp [Controlar, hL]
  rw [hfst]
  exact max_eq_left (le_trans (min_le_right _ _) h.le)

/-- C10: inverted bounds are stored, the one-argument enable is then honored,
and in that state every Evaluate returns the lower bound. -/
theorem C10_inverted_bounds_pin_output (s : controlPID) (R : Bool) (SMIN SMAX : ℚ)
    (h : SMAX < SMIN) (E : ℚ) (t : ℕ) :
    (LimitarSalida3 s R SMIN SMAX).2.SalidaMin = SMIN
    ∧ (LimitarSalida3 s R SMIN SMAX).2.SalidaMax = SMAX
    ∧ (LimitarSalida3 s R SMIN SMAX).2.LimitaSalida = false
    ∧ (LimitarSalida1 (LimitarSalida3 s R SMIN SMAX).2 true).1 = true
    ∧ (LimitarSalida1 (LimitarSalida3 s R SMIN SMAX).2 true).2.LimitaSalida = true
    ∧ (Controlar (LimitarSalida1 (LimitarSalida3 s R SMIN SMAX).2 true).2 E t).1 = SMIN
    ∧ (Controlar (LimitarSalida1 (LimitarSalida3 s R SMIN SMAX).2 true).2 E t).2.LimitaSalida = true
    ∧ (Controlar (LimitarSalida1 (LimitarSalida3 s R SMIN SMAX).2 true).2 E t).2.SalidaMin = SMIN
    ∧ (Controlar (LimitarSalida1 (LimitarSalida3 s R SMIN SMAX).2 true).2 E t).2.SalidaMax = SMAX := by
  have hz : ¬(SMAX = 0 ∧ SMIN = 0) := by
    rintro ⟨ha, hb⟩
    rw [ha, hb] at h
    exact lt_irrefl 0 h
  have h3 := LimitarSalida3_of_inverted s R SMIN SMAX h
  rw [h3]
  have h1 := LimitarSalida1_of_nonzero
    ({ s with SalidaMax := SMAX, SalidaMin := SMIN, LimitaSalida := false }) true hz
  have h1f : (LimitarSalida1
      ({ s with SalidaMax := SMAX, SalidaMin := SMIN, LimitaSalida := false }) true).1
      = (LimitarSalida1
      ({ s with SalidaMax := SMAX, SalidaMin := SMIN, LimitaSalida := false }) true).2.LimitaSalida :=
    rfl
  rw [h1f, h1]
  refine ⟨rfl, rfl, rfl, rfl, rfl, ?_, rfl, rfl, rfl⟩
  exact Controlar_inverted_clamp _ E t rfl h

theorem C10_witness :
    ((1 : ℚ) < 2)
    ∧ (Controlar (LimitarSalida1 (LimitarSalida3 (controlPID.init 1 0 0) false 2 1).2 true).2
        7 5).1 = 2 :=
  ⟨by norm_num,
   (C10_inverted_bounds_pin_output (controlPID.init 1 0 0) false 2 1 (by norm_num) 7 5).2.2.2.2.2.1⟩
